import Mathlib

/-!
Shallow embedding of the 2D geometry batching core of BFEngine
(`src/bfe-graphics/core/graphics.cpp`, class `CGraphics`), together with
theorems settling the specification claims about it.

Modelling conventions:
* C++ `double`/`float` arithmetic is modelled over the reals.
* The parallel write buffers (`m_vecVertices`, `m_vecColours`, `m_vecUV0s`,
  `m_vecUV1s` and the three index buffers) are pre-sized vectors in the
  source whose live contents are always the prefix below the write cursor
  (`m_unIndexVerts` etc.); every write is `buf[cursor++] = v`.  We model the
  live prefix as a `List`, so a write is an append and the cursor value is
  the list length.  Resetting a cursor to zero is modelled as clearing the
  list (the stale suffix beyond the cursor is never read by the source).
* GL calls (`glBufferData`, `glDrawElements`, ...) only transport the
  buffered data to the device; the observable effect of a flush is recorded
  in an event log (`glog`), one `GEvent.submit` per flush/draw block and one
  `GEvent.warn` per `WARNING_MSG` diagnostic.
* The class header `graphics.h` is not part of the sources.  Constants that
  live there are handled as follows: `GRAPHICS_SIZE_OF_INDEX_BUFFER`
  (= `m_unIndexMax`, the shared buffer capacity / index budget described in
  the spec) is kept as a state component `cap`; `GRAPHICS_PX_PER_METER`
  is a parameter of `resizeViewport`; `MATH_PI2` is `Real.pi / 2` (the spec
  describes the rotation as by `pi/2 - cameraAngle`);
  `GRAPHICS_RENDER_BATCH_CALL_FORCED` is `true` (the spec describes the
  mode-change path of `beginRenderBatch` as an internal end that keeps the
  stack, which is exactly the forced path of `endRenderBatch`).
-/

namespace BFE

/-- `RenderModeType` of a render mode (`graphics.h`, used throughout
`graphics.cpp`): plain coloured geometry, one or two UV channels. -/
inductive RenderModeType where
  | VERT3COL4
  | VERT3COL4TEX2
  | VERT3COL4TEX2X2
deriving DecidableEq, Repr

/-- A borrowed `CRenderMode*`.  Only its `RenderModeType` is inspected by the
batching code; `rid` models the identity of the externally owned object. -/
structure CRenderMode where
  rmType : RenderModeType
  rid : ℕ
deriving DecidableEq, Repr

/-- `PolygonType` of a line list (`beginLine` / `endLine`). -/
inductive PolygonType where
  | LINE_SINGLE
  | LINE_STRIP
  | LINE_LOOP
  | FILLED
deriving DecidableEq, Repr

/-- The current paint colour `m_aColour` (RGBA). -/
structure Colour where
  r : ℝ
  g : ℝ
  b : ℝ
  a : ℝ

/-- The data a flush/draw block hands to the device: the render-mode type it
draws with and the live contents of the index and vertex buffers. -/
structure Submission where
  smType : RenderModeType
  subLines : List ℕ
  subPoints : List ℕ
  subTriangles : List ℕ
  subVerts : List ℝ

/-- Observable events of a run: draw submissions and warning diagnostics. -/
inductive GEvent where
  | submit (sub : Submission)
  | warn

/-- The state of the `CGraphics` singleton: accumulation buffers and their
cursors (cursor = list length, see the module docstring), line-in-progress
bookkeeping, the render-mode stack, frame counters, the camera/viewport
parameters, and the event log. -/
structure Graphics where
  /-- `GRAPHICS_SIZE_OF_INDEX_BUFFER` = `m_unIndexMax`: the fixed capacity
  shared by all buffers (value defined in the missing header). -/
  cap : ℕ
  /-- `m_uncI`: cumulative index-cost counter since the last flush. -/
  uncI : ℕ
  /-- `m_unIndex`: the shared vertex-ordinal counter. -/
  unIndex : ℕ
  /-- `m_vecVertices` live prefix (3 floats per vertex: x, y, depth). -/
  vertices : List ℝ
  /-- `m_vecColours` live prefix (4 floats per vertex). -/
  colours : List ℝ
  /-- `m_vecUV0s` live prefix. -/
  uv0s : List ℝ
  /-- `m_vecUV1s` live prefix. -/
  uv1s : List ℝ
  /-- `m_vecIndicesLines` live prefix. -/
  indicesLines : List ℕ
  /-- `m_vecIndicesPoints` live prefix. -/
  indicesPoints : List ℕ
  /-- `m_vecIndicesTriangles` live prefix. -/
  indicesTriangles : List ℕ
  /-- `m_nLineNrOfVerts`: vertices added since `beginLine`. -/
  nLineNrOfVerts : ℕ
  /-- `m_PolyType`: type of the line in progress. -/
  polyType : PolygonType
  /-- `m_bLineBatchCall`: the current `endLine` is due to a forced split. -/
  bLineBatchCall : Bool
  /-- `m_bLineBatchFirst`: no forced split has happened in the current
  logical line yet (so the first vertex is still in the buffer). -/
  bLineBatchFirst : Bool
  /-- `m_aVertFirst`: snapshot of the first vertex position of a split line. -/
  aVertFirst : ℝ × ℝ
  /-- `m_aColour`: current paint colour. -/
  colour : Colour
  /-- `m_fDepth`: current depth value. -/
  fDepth : ℝ
  /-- `m_RenderModeStack` (top = head). -/
  renderModeStack : List CRenderMode
  /-- `m_RenderModeType`; always equal to
  `m_pRenderMode->getRenderModeType()` since both are assigned together in
  `beginRenderBatch`, so a single field models both. -/
  renderModeType : RenderModeType
  /-- `m_RenderModesByName`: the render-mode registry. -/
  renderModesByName : List (String × CRenderMode)
  /-- `m_nDrawCalls` frame counter. -/
  nDrawCalls : ℕ
  /-- `m_nLines` frame counter. -/
  nLines : ℕ
  /-- `m_nPoints` frame counter. -/
  nPoints : ℕ
  /-- `m_nTriangles` frame counter. -/
  nTriangles : ℕ
  /-- `m_nVerts` frame counter. -/
  nVerts : ℕ
  /-- `m_CosCache`. -/
  cosCache : ℕ → ℝ
  /-- `m_SinCache`. -/
  sinCache : ℕ → ℝ
  /-- `m_ViewPort.leftplane`. -/
  leftplane : ℝ
  /-- `m_ViewPort.rightplane`. -/
  rightplane : ℝ
  /-- `m_ViewPort.bottomplane`. -/
  bottomplane : ℝ
  /-- `m_ViewPort.topplane`. -/
  topplane : ℝ
  /-- `m_unWidthScr` (an integer in the source, modelled as a real since it
  only enters real arithmetic). -/
  widthScr : ℝ
  /-- `m_unHeightScr`. -/
  heightScr : ℝ
  /-- `m_vecCamPos[0]`. -/
  vecCamPosX : ℝ
  /-- `m_vecCamPos[1]`. -/
  vecCamPosY : ℝ
  /-- `m_fCamAng`. -/
  fCamAng : ℝ
  /-- `m_fCamZoom`. -/
  fCamZoom : ℝ
  /-- Event log: submissions and warnings in program order. -/
  glog : List GEvent

/-- The state right after construction (`CGraphics::CGraphics`) for a given
buffer capacity: zeroed counters and caches, colour `{1,1,1,1}`, camera at
identity, empty stack and registry.  `m_fDepth` and the screen resolution
default to header constants not in the sources; the concrete values are
irrelevant to every theorem below (transform theorems quantify over them). -/
def initG (cap : ℕ) : Graphics :=
  { cap := cap
    uncI := 0
    unIndex := 0
    vertices := []
    colours := []
    uv0s := []
    uv1s := []
    indicesLines := []
    indicesPoints := []
    indicesTriangles := []
    nLineNrOfVerts := 0
    polyType := PolygonType.LINE_SINGLE
    bLineBatchCall := false
    bLineBatchFirst := true
    aVertFirst := (0, 0)
    colour := ⟨1, 1, 1, 1⟩
    fDepth := 0
    renderModeStack := []
    renderModeType := RenderModeType.VERT3COL4
    renderModesByName := []
    nDrawCalls := 0
    nLines := 0
    nPoints := 0
    nTriangles := 0
    nVerts := 0
    cosCache := fun _ => 0
    sinCache := fun _ => 0
    leftplane := 0
    rightplane := 0
    bottomplane := 0
    topplane := 0
    widthScr := 800
    heightScr := 600
    vecCamPosX := 0
    vecCamPosY := 0
    fCamAng := 0
    fCamZoom := 1
    glog := [] }

/-! ## Transform component (`screen2World`, `world2Screen`, viewport) -/

/-- The C standard-library `atan2(y, x)`: the angle of the point `(x, y)`,
which is exactly `Complex.arg` of the complex number `x + y*I`. -/
noncomputable def atan2 (y x : ℝ) : ℝ := Complex.arg ⟨x, y⟩

/-- `CGraphics::screen2World(const Vector2d&)`
(`graphics.cpp` lines 105-128).  The locals `fX`, `fY`, `fL`, `fAtan`
mirror the source; `MATH_PI2` is `pi / 2`. -/
noncomputable def screen2World (g : Graphics) (v : ℝ × ℝ) : ℝ × ℝ :=
  let fX := ((g.rightplane - g.leftplane) / g.widthScr * v.1 +
      g.leftplane) / g.fCamZoom
  let fY := ((g.topplane - g.bottomplane) / g.heightScr * v.2 +
      g.bottomplane) / g.fCamZoom
  let fL := Real.sqrt (fX * fX + fY * fY)
  let fAtan := atan2 fX fY
  (fL * Real.cos (fAtan - (Real.pi / 2 - g.fCamAng)) + g.vecCamPosX,
   fL * Real.sin (fAtan - (Real.pi / 2 - g.fCamAng)) - g.vecCamPosY)

/-- `CGraphics::screen2World(const double&, const double&)`
(`graphics.cpp` lines 140-163), the overload taking the two coordinates as
separate scalars; its body repeats the vector overload verbatim. -/
noncomputable def screen2WorldScalar (g : Graphics) (sx sy : ℝ) : ℝ × ℝ :=
  let fX := ((g.rightplane - g.leftplane) / g.widthScr * sx +
      g.leftplane) / g.fCamZoom
  let fY := ((g.topplane - g.bottomplane) / g.heightScr * sy +
      g.bottomplane) / g.fCamZoom
  let fL := Real.sqrt (fX * fX + fY * fY)
  let fAtan := atan2 fX fY
  (fL * Real.cos (fAtan - (Real.pi / 2 - g.fCamAng)) + g.vecCamPosX,
   fL * Real.sin (fAtan - (Real.pi / 2 - g.fCamAng)) - g.vecCamPosY)

/-- `CGraphics::world2Screen` (`graphics.cpp` lines 174-182):
`(Rot(ang) * (x, -y) * zoom - (leftplane, -topplane)) * width / (right - left)`
written out componentwise (`Rot(a)*(u,v) = (u cos a - v sin a, u sin a + v cos a)`). -/
noncomputable def world2Screen (g : Graphics) (v : ℝ × ℝ) : ℝ × ℝ :=
  (((Real.cos g.fCamAng * v.1 - Real.sin g.fCamAng * (-v.2)) * g.fCamZoom -
      g.leftplane) * g.widthScr / (g.rightplane - g.leftplane),
   ((Real.sin g.fCamAng * v.1 + Real.cos g.fCamAng * (-v.2)) * g.fCamZoom -
      (-g.topplane)) * g.widthScr / (g.rightplane - g.leftplane))

/-- `CGraphics::setViewPort` (`graphics.cpp` lines 212-219). -/
def setViewPort (l r b t : ℝ) (g : Graphics) : Graphics :=
  { g with leftplane := l, rightplane := r, bottomplane := b, topplane := t }

/-- `CGraphics::resizeViewport` (`graphics.cpp` lines 695-712).  The constant
`GRAPHICS_PX_PER_METER` lives in the missing header and is kept as the
parameter `ppm` (the spec calls it the fixed pixels-per-meter constant).
The `setupWorldSpace` call only rebuilds the GL projection matrix. -/
noncomputable def resizeViewport (w h ppm : ℝ) (g : Graphics) : Graphics :=
  { g with widthScr := w
           heightScr := h
           rightplane := w * (0.5 / ppm)
           topplane := h * (0.5 / ppm)
           leftplane := -(w * (0.5 / ppm))
           bottomplane := -(h * (0.5 / ppm)) }

/-! ## Batch state machine (`beginRenderBatch` / `endRenderBatch`) -/

/-- Number of `glDrawElements` calls a flush issues for a mode type: three
index streams for `VERT3COL4` (lines, points, triangles), one (triangles)
for the texture modes (`graphics.cpp` lines 471-519 and 1843-1891). -/
def drawCallsFor : RenderModeType → ℕ
  | RenderModeType.VERT3COL4 => 3
  | RenderModeType.VERT3COL4TEX2 => 1
  | RenderModeType.VERT3COL4TEX2X2 => 1

/-- The flush/draw block shared by `endRenderBatch` (its `bEnd` branch,
lines 461-525) and `restartRenderBatchInternal` (lines 1835-1897): upload the
live buffer contents, issue the draw call(s) for the active mode type, and
accumulate the frame counters.  The upload+draw is recorded as one
`GEvent.submit`. -/
def flushDraw (g : Graphics) : Graphics :=
  { g with glog := g.glog ++ [GEvent.submit
      { smType := g.renderModeType
        subLines := g.indicesLines
        subPoints := g.indicesPoints
        subTriangles := g.indicesTriangles
        subVerts := g.vertices }]
           nDrawCalls := g.nDrawCalls + drawCallsFor g.renderModeType
           nLines := g.nLines + g.indicesLines.length
           nPoints := g.nPoints + g.indicesPoints.length
           nTriangles := g.nTriangles + g.indicesTriangles.length
           nVerts := g.nVerts + g.vertices.length }

/-- Resetting every write cursor to zero (`graphics.cpp` lines 377-385 in
`beginRenderBatch`, identically lines 1913-1921 in
`restartRenderBatchInternal`).  With buffers modelled as live prefixes this
clears the lists. -/
def resetCursors (g : Graphics) : Graphics :=
  { g with uncI := 0
           unIndex := 0
           vertices := []
           colours := []
           uv0s := []
           uv1s := []
           indicesLines := []
           indicesPoints := []
           indicesTriangles := [] }

/-- `CGraphics::restartRenderBatchInternal` (`graphics.cpp` lines 1831-1922):
flush and draw the current contents, then reset all cursors; the mode stack
is untouched. -/
def restartRenderBatchInternal (g : Graphics) : Graphics :=
  resetCursors (flushDraw g)

/-- `CGraphics::beginRenderBatch(CRenderMode*, bool)` (`graphics.cpp` lines
286-387).  On a mode change with a non-empty stack the source calls
`endRenderBatch(GRAPHICS_RENDER_BATCH_CALL_FORCED)`, whose forced path is
exactly the flush/draw block `flushDraw` (no stack change, no re-begin);
it is inlined here so that `endRenderBatch` below can in turn call
`beginRenderBatch`.  The GL buffer re-allocation of the `bBegin` block has
no observable effect besides the cursor reset. -/
def beginRenderBatch (m : CRenderMode) (bForce : Bool) (g : Graphics) :
    Graphics :=
  let p : Bool × Graphics :=
    if bForce then
      (true, g)
    else
      match g.renderModeStack with
      | [] => (true, { g with renderModeStack := m :: g.renderModeStack })
      | top :: _ =>
        if top.rmType ≠ m.rmType then
          let g1 := flushDraw g
          (true, { g1 with renderModeStack := m :: g1.renderModeStack })
        else
          (false, { g with renderModeStack := m :: g.renderModeStack })
  let g2 := { p.2 with renderModeType := m.rmType }
  if p.1 then resetCursors g2 else g2

/-- `CGraphics::endRenderBatch(bool)` (`graphics.cpp` lines 425-535).
Non-forced: pop; if the stack became empty, flush+draw; if the new top's
mode type differs from the one just active, flush+draw and re-begin for the
new top (popping it first, since `beginRenderBatch` pushes it back).  On an
already empty stack only the `WARNING_MSG` diagnostic fires. -/
def endRenderBatch (bForce : Bool) (g : Graphics) : Graphics :=
  if bForce then
    flushDraw g
  else
    match g.renderModeStack with
    | [] => { g with glog := g.glog ++ [GEvent.warn] }
    | _ :: [] => flushDraw { g with renderModeStack := [] }
    | _ :: top :: rest2 =>
      if top.rmType ≠ g.renderModeType then
        let g1 := flushDraw { g with renderModeStack := top :: rest2 }
        beginRenderBatch top false { g1 with renderModeStack := rest2 }
      else
        { g with renderModeStack := top :: rest2 }

/-- `CGraphics::restartRenderBatch(CRenderMode*)` (`graphics.cpp` lines
545-562). -/
def restartRenderBatch (m : CRenderMode) (g : Graphics) : Graphics :=
  if g.renderModeStack ≠ [] ∧ g.renderModeType = m.rmType ∧ g.unIndex ≠ 0 then
    beginRenderBatch m false (endRenderBatch false g)
  else
    g

/-- `CGraphics::beginRenderBatch(const std::string&)` (`graphics.cpp` lines
398-413): look the name up in the registry; on a hit begin a batch (the
pointer overload's `_bForce` defaults to non-forced) and return `true`, on a
miss log a warning and return `false`. -/
def beginRenderBatchByName (name : String) (g : Graphics) :
    Graphics × Bool :=
  match g.renderModesByName.lookup name with
  | some m => (beginRenderBatch m false g, true)
  | none => ({ g with glog := g.glog ++ [GEvent.warn] }, false)

/-- `CGraphics::restartRenderBatch(const std::string&)` (`graphics.cpp`
lines 573-588). -/
def restartRenderBatchByName (name : String) (g : Graphics) :
    Graphics × Bool :=
  match g.renderModesByName.lookup name with
  | some m => (restartRenderBatch m g, true)
  | none => ({ g with glog := g.glog ++ [GEvent.warn] }, false)

/-- The draw submissions contained in an event log, in order. -/
def submissionsOf (l : List GEvent) : List Submission :=
  l.filterMap fun e =>
    match e with
    | GEvent.submit s => some s
    | GEvent.warn => none

/-- The mode types of the draw submissions of an event log, in order. -/
def submissionTypes (l : List GEvent) : List RenderModeType :=
  (submissionsOf l).map Submission.smType

/-! ## Line lists (`beginLine` / `addVertex` / `endLine`) -/

/-- One vertex-position write group:
`m_vecVertices[m_unIndexVerts++] = x; ... = y; ... = d;`. -/
def writeVert3 (x y d : ℝ) (g : Graphics) : Graphics :=
  { g with vertices := g.vertices ++ [x, y, d] }

/-- One colour write group: the four components of `m_aColour` appended to
`m_vecColours`. -/
def writeCol4 (g : Graphics) : Graphics :=
  { g with colours :=
      g.colours ++ [g.colour.r, g.colour.g, g.colour.b, g.colour.a] }

/-- `m_vecIndicesLines[m_unIndexLines++] = v`. -/
def writeLineIdx (v : ℕ) (g : Graphics) : Graphics :=
  { g with indicesLines := g.indicesLines ++ [v] }

/-- `CGraphics::beginLine` (`graphics.cpp` lines 1719-1725). -/
def beginLine (t : PolygonType) (g : Graphics) : Graphics :=
  { g with nLineNrOfVerts := 0, polyType := t }

/-- One iteration of the strip/loop edge loop of `endLine` (lines
1748-1752): `lines[cur++] = m_unIndex++; lines[cur++] = m_unIndex;`. -/
def stripEdgeStep (g : Graphics) : Graphics :=
  let g1 := { writeLineIdx g.unIndex g with unIndex := g.unIndex + 1 }
  writeLineIdx g1.unIndex g1

/-- The strip/loop edge loop of `endLine`: `for (i = 0; i < n - 1; ++i)`,
written as recursion on the number of vertices `n` still to join (one step
per iteration, `n = 0` and `n = 1` give zero iterations like `i < n - 1`
on ints). -/
def stripEdges : ℕ → Graphics → Graphics
  | 0, g => g
  | 1, g => g
  | n + 2, g => stripEdges (n + 1) (stripEdgeStep g)

/-- One iteration of the `LINE_SINGLE` loop of `endLine` (lines 1740-1744):
`lines[cur++] = m_unIndex++;` twice. -/
def singlePairStep (g : Graphics) : Graphics :=
  let g1 := { writeLineIdx g.unIndex g with unIndex := g.unIndex + 1 }
  { writeLineIdx g1.unIndex g1 with unIndex := g1.unIndex + 1 }

/-- The `LINE_SINGLE` loop of `endLine`: `for (i = 0; i < n - 1; i += 2)`,
written as recursion consuming two vertices per iteration. -/
def singlePairs : ℕ → Graphics → Graphics
  | 0, g => g
  | 1, g => g
  | n + 2, g => singlePairs n (singlePairStep g)

/-- `CGraphics::endLine` (`graphics.cpp` lines 1734-1790).  For the
strip/loop kinds: join consecutive vertices; then, only when the line ends
genuinely (`!m_bLineBatchCall`) and is a `LINE_LOOP`/`FILLED`, emit the
closing edge — against the first vertex still in the buffer
(`m_unIndex + 1 - m_nLineNrOfVerts`, an ordinal that is in range whenever
the line's vertices are in the current batch generation) if no split
happened, otherwise against a freshly appended copy of the snapshot
`m_aVertFirst`.  The `if (m_bLineBatchCall)` branch of the source under the
comment "Close gaps if between batches" is empty.  Finally
`m_bLineBatchFirst` is re-armed only on a genuine ending. -/
def endLine (g : Graphics) : Graphics :=
  let g1 :=
    if g.polyType = PolygonType.LINE_SINGLE then
      singlePairs g.nLineNrOfVerts g
    else
      let gA := stripEdges g.nLineNrOfVerts g
      let gB :=
        if g.bLineBatchCall then
          gA
        else
          if g.polyType = PolygonType.LINE_LOOP ∨
              g.polyType = PolygonType.FILLED then
            if g.bLineBatchFirst then
              writeLineIdx gA.unIndex
                (writeLineIdx (gA.unIndex + 1 - g.nLineNrOfVerts) gA)
            else
              let gC := writeCol4
                (writeVert3 g.aVertFirst.1 g.aVertFirst.2 g.fDepth gA)
              let gD := { writeLineIdx gC.unIndex gC with
                            unIndex := gC.unIndex + 1 }
              writeLineIdx gD.unIndex gD
          else
            gA
      { gB with unIndex := gB.unIndex + 1 }
  if g.bLineBatchCall then g1 else { g1 with bLineBatchFirst := true }

/-- `CGraphics::addVertex(const Vector2d&)` (`graphics.cpp` lines
1102-1132); the scalar overload (lines 1145-1175) repeats it verbatim.
Adds 4 cost units; if the cumulative cost exceeds
`GRAPHICS_SIZE_OF_INDEX_BUFFER / 2` and an even number of vertices has been
written (never splitting a `LINE_SINGLE` pair), snapshot the line's first
vertex on the first split, end the partial line as a batch call, flush, and
re-open a line of the same type; then write the vertex and colour. -/
def addVertex (x y : ℝ) (g : Graphics) : Graphics :=
  let g0 := { g with uncI := g.uncI + 4 }
  let g1 :=
    if g0.cap / 2 < g0.uncI ∧ g0.nLineNrOfVerts % 2 = 0 then
      let gA :=
        if g0.bLineBatchFirst then
          { g0 with
              aVertFirst :=
                (g0.vertices.getD
                  (g0.vertices.length - 3 * g0.nLineNrOfVerts) 0,
                 g0.vertices.getD
                  (g0.vertices.length - 3 * g0.nLineNrOfVerts + 1) 0)
              bLineBatchFirst := false }
        else
          g0
      let gB := endLine { gA with bLineBatchCall := true }
      let gC := restartRenderBatchInternal gB
      let gD := beginLine gC.polyType gC
      { gD with bLineBatchCall := false }
    else
      g0
  let g2 := writeCol4 (writeVert3 x y g1.fDepth g1)
  { g2 with nLineNrOfVerts := g2.nLineNrOfVerts + 1 }

/-! ## Primitive emitters -/

/-- `CGraphics::cacheSinCos` (`graphics.cpp` lines 191-200): fill the first
`nSeg + 1` cache slots with `cos`/`sin` of `i * 2 pi / nSeg`. -/
noncomputable def cacheSinCos (nSeg : ℕ) (g : Graphics) : Graphics :=
  { g with
      cosCache := fun i =>
        if i ≤ nSeg then Real.cos (i * (2 * Real.pi) / nSeg) else g.cosCache i
      sinCache := fun i =>
        if i ≤ nSeg then Real.sin (i * (2 * Real.pi) / nSeg) else g.sinCache i }

/-- `CGraphics::dot` (`graphics.cpp` lines 1184-1202). -/
def dot (x y : ℝ) (g : Graphics) : Graphics :=
  let g1 := writeCol4 (writeVert3 x y g.fDepth g)
  let g2 := { g1 with indicesPoints := g1.indicesPoints ++ [g1.unIndex]
                      unIndex := g1.unIndex + 1
                      uncI := g1.uncI + 4 }
  if g2.cap / 2 < g2.uncI then restartRenderBatchInternal g2 else g2

/-- `CGraphics::filledTriangle` (`graphics.cpp` lines 1434-1470). -/
def filledTriangle (x1 y1 x2 y2 x3 y3 : ℝ) (g : Graphics) : Graphics :=
  let g1 := { g with vertices := g.vertices ++
      [x1, y1, g.fDepth, x2, y2, g.fDepth, x3, y3, g.fDepth] }
  let g2 := writeCol4 (writeCol4 (writeCol4 g1))
  let g3 := { g2 with
      indicesTriangles := g2.indicesTriangles ++
        [g2.unIndex, g2.unIndex + 1, g2.unIndex + 2]
      unIndex := g2.unIndex + 3
      uncI := g2.uncI + 12 }
  if g3.cap / 2 < g3.uncI then restartRenderBatchInternal g3 else g3

/-- `CGraphics::filledRect` (`graphics.cpp` lines 1378-1423): four corner
vertices (LL, LR, UL, UR), four colours, two triangles over ordinals
`u, u+1, u+2` and `u+2, u+1, u+3`, then `m_unIndex += 2` after the two
increments inside the index writes. -/
def filledRect (llx lly urx ury : ℝ) (g : Graphics) : Graphics :=
  let g1 := { g with vertices := g.vertices ++
      [llx, lly, g.fDepth, urx, lly, g.fDepth,
       llx, ury, g.fDepth, urx, ury, g.fDepth] }
  let g2 := writeCol4 (writeCol4 (writeCol4 (writeCol4 g1)))
  let g3 := { g2 with
      indicesTriangles := g2.indicesTriangles ++
        [g2.unIndex, g2.unIndex + 1, g2.unIndex + 2,
         g2.unIndex + 2, g2.unIndex + 1, g2.unIndex + 3]
      unIndex := g2.unIndex + 4
      uncI := g2.uncI + 16 }
  if g3.cap / 2 < g3.uncI then restartRenderBatchInternal g3 else g3

/-- `CGraphics::rect` (`graphics.cpp` lines 1529-1577): outline of four
corners (LL, LR, UR, UL) as four line segments closing back to the first
ordinal. -/
def rect (llx lly urx ury : ℝ) (g : Graphics) : Graphics :=
  let g1 := { g with vertices := g.vertices ++
      [llx, lly, g.fDepth, urx, lly, g.fDepth,
       urx, ury, g.fDepth, llx, ury, g.fDepth] }
  let g2 := writeCol4 (writeCol4 (writeCol4 (writeCol4 g1)))
  let g3 := { g2 with
      indicesLines := g2.indicesLines ++
        [g2.unIndex, g2.unIndex + 1, g2.unIndex + 1, g2.unIndex + 2,
         g2.unIndex + 2, g2.unIndex + 3, g2.unIndex + 3, g2.unIndex]
      unIndex := g2.unIndex + 4
      uncI := g2.uncI + 12 }
  if g3.cap / 2 < g3.uncI then restartRenderBatchInternal g3 else g3

/-- `CGraphics::texturedRect` with one UV set (`graphics.cpp` lines
1588-1639). -/
def texturedRect (llx lly urx ury : ℝ) (uvs : List ℝ) (g : Graphics) :
    Graphics :=
  let g1 := { g with vertices := g.vertices ++
      [llx, lly, g.fDepth, urx, lly, g.fDepth,
       llx, ury, g.fDepth, urx, ury, g.fDepth] }
  let g2 := writeCol4 (writeCol4 (writeCol4 (writeCol4 g1)))
  let g3 := { g2 with uv0s := g2.uv0s ++ uvs }
  let g4 := { g3 with
      indicesTriangles := g3.indicesTriangles ++
        [g3.unIndex, g3.unIndex + 1, g3.unIndex + 2,
         g3.unIndex + 2, g3.unIndex + 1, g3.unIndex + 3]
      unIndex := g3.unIndex + 4
      uncI := g3.uncI + 12 }
  if g4.cap / 2 < g4.uncI then restartRenderBatchInternal g4 else g4

/-- `CGraphics::texturedRect` with two UV sets (`graphics.cpp` lines
1651-1707). -/
def texturedRect2 (llx lly urx ury : ℝ) (uv0 uv1 : List ℝ) (g : Graphics) :
    Graphics :=
  let g1 := { g with vertices := g.vertices ++
      [llx, lly, g.fDepth, urx, lly, g.fDepth,
       llx, ury, g.fDepth, urx, ury, g.fDepth] }
  let g2 := writeCol4 (writeCol4 (writeCol4 (writeCol4 g1)))
  let g3 := { g2 with uv0s := g2.uv0s ++ uv0, uv1s := g2.uv1s ++ uv1 }
  let g4 := { g3 with
      indicesTriangles := g3.indicesTriangles ++
        [g3.unIndex, g3.unIndex + 1, g3.unIndex + 2,
         g3.unIndex + 2, g3.unIndex + 1, g3.unIndex + 3]
      unIndex := g3.unIndex + 4
      uncI := g3.uncI + 12 }
  if g4.cap / 2 < g4.uncI then restartRenderBatchInternal g4 else g4

/-- `CGraphics::polygon` (`graphics.cpp` lines 1482-1519): open a line of
the given polygon type, write all vertex positions (offset added unless the
offset `isZero()`), then all colours, add `4 * size` cost units and `size`
to the per-line vertex count, and close the line.  The source contains no
threshold check and no call to `restartRenderBatchInternal`. -/
noncomputable def polygon (vs : List (ℝ × ℝ)) (pt : PolygonType)
    (ox oy : ℝ) (g : Graphics) : Graphics :=
  let g1 := beginLine pt g
  let g2 :=
    if ox = 0 ∧ oy = 0 then
      { g1 with vertices := g1.vertices ++
          (vs.map fun (p : ℝ × ℝ) => [p.1, p.2, g1.fDepth]).flatten }
    else
      { g1 with vertices := g1.vertices ++
          (vs.map fun (p : ℝ × ℝ) => [p.1 + ox, p.2 + oy, g1.fDepth]).flatten }
  let g3 := { g2 with colours := g2.colours ++
      ((List.range vs.length).map fun _ =>
        [g2.colour.r, g2.colour.g, g2.colour.b, g2.colour.a]).flatten }
  let g4 := { g3 with uncI := g3.uncI + 4 * vs.length
                      nLineNrOfVerts := g3.nLineNrOfVerts + vs.length }
  endLine g4





/-- One iteration of the cached `circle` loop (`graphics.cpp` lines
1000-1011): rim vertex `i` from the sine/cosine caches, its colour, and the
edge `lines[cur++] = m_unIndex - 1; lines[cur++] = m_unIndex++;`. -/
noncomputable def circleStepC (cx cy r : ℝ) (i : ℕ) (g : Graphics) :
    Graphics :=
  let g1 := writeCol4 { g with vertices := g.vertices ++
      [cx + g.sinCache i * r, cy + g.cosCache i * r, g.fDepth] }
  { g1 with indicesLines := g1.indicesLines ++ [g1.unIndex - 1, g1.unIndex]
            unIndex := g1.unIndex + 1 }

/-- The cached `circle` loop `for (i = 1; i < nSeg + 1; ++i)`: `k` remaining
iterations starting at cache slot `i`. -/
noncomputable def circleLoopC (cx cy r : ℝ) : ℕ → ℕ → Graphics → Graphics
  | _, 0, g => g
  | i, k + 1, g => circleLoopC cx cy r (i + 1) k (circleStepC cx cy r i g)

/-- One iteration of the uncached `circle` loop (`graphics.cpp` lines
1036-1051).  The running angle `fAng` is represented exactly in turns
(`a` turns = `a * 2 pi` radians), so `sin(fAng)` is
`Real.sin (2 * pi * a)`; the loop condition `fAng < MATH_2PI` is `a < 1`. -/
noncomputable def circleStepU (cx cy r : ℝ) (a : ℚ) (g : Graphics) :
    Graphics :=
  let g1 := writeCol4 { g with vertices := g.vertices ++
      [cx + Real.sin (2 * Real.pi * (a : ℝ)) * r,
       cy + Real.cos (2 * Real.pi * (a : ℝ)) * r, g.fDepth] }
  { g1 with indicesLines := g1.indicesLines ++ [g1.unIndex - 1, g1.unIndex]
            unIndex := g1.unIndex + 1
            uncI := g1.uncI + 4 }

/-- The uncached `circle` loop `while (fAng < MATH_2PI)` with
`fAng += MATH_2PI / nSeg`, i.e. steps of `1 / nSeg` turns; structurally
recursive on a fuel bound that dominates the number of iterations. -/
noncomputable def circleLoopU (cx cy r : ℝ) (nSeg : ℕ) :
    ℕ → ℚ → Graphics → Graphics
  | 0, _, g => g
  | fuel + 1, a, g =>
    if a < 1 then
      circleLoopU cx cy r nSeg fuel (a + 1 / nSeg) (circleStepU cx cy r a g)
    else
      g

/-- `CGraphics::circle` (`graphics.cpp` lines 982-1058). -/
noncomputable def circle (cx cy r : ℝ) (nSeg : ℕ) (bCache : Bool)
    (g : Graphics) : Graphics :=
  let g1 :=
    if bCache then
      let gA := writeCol4 { g with vertices := g.vertices ++
          [cx + g.sinCache 0 * r, cy + g.cosCache 0 * r, g.fDepth] }
      let gB := { gA with unIndex := gA.unIndex + 1 }
      let gC := circleLoopC cx cy r 1 nSeg gB
      let gD := { gC with indicesLines := gC.indicesLines ++
          [gC.unIndex - 1, gC.unIndex - nSeg] }
      { gD with uncI := gD.uncI + (nSeg + 1) * 4 }
    else
      let gA := writeCol4 { g with vertices := g.vertices ++
          [cx + Real.sin 0 * r, cy + Real.cos 0 * r, g.fDepth] }
      let gB := { gA with unIndex := gA.unIndex + 1, uncI := gA.uncI + 4 }
      circleLoopU cx cy r nSeg (nSeg + 1) (1 / nSeg) gB
  if g1.cap / 2 < g1.uncI then restartRenderBatchInternal g1 else g1

/-- One iteration of the cached `filledCircle` loop (`graphics.cpp` lines
1301-1313): rim vertex `i`, its colour, and the triangle
`(centerIndex, m_unIndex - 1, m_unIndex++)`. -/
noncomputable def fcStepC (cx cy r : ℝ) (cIdx i : ℕ) (g : Graphics) :
    Graphics :=
  let g1 := writeCol4 { g with vertices := g.vertices ++
      [cx + g.sinCache i * r, cy + g.cosCache i * r, g.fDepth] }
  { g1 with indicesTriangles := g1.indicesTriangles ++
      [cIdx, g1.unIndex - 1, g1.unIndex]
            unIndex := g1.unIndex + 1 }

/-- The cached `filledCircle` loop `for (i = 1; i < nSeg; ++i)`: `k`
remaining iterations starting at cache slot `i`. -/
noncomputable def fcLoopC (cx cy r : ℝ) (cIdx : ℕ) :
    ℕ → ℕ → Graphics → Graphics
  | _, 0, g => g
  | i, k + 1, g => fcLoopC cx cy r cIdx (i + 1) k (fcStepC cx cy r cIdx i g)

/-- One iteration of the uncached `filledCircle` loop (`graphics.cpp` lines
1348-1362), angle in turns as in `circleStepU`. -/
noncomputable def fcStepU (cx cy r : ℝ) (cIdx : ℕ) (a : ℚ) (g : Graphics) :
    Graphics :=
  let g1 := writeCol4 { g with vertices := g.vertices ++
      [cx + Real.sin (2 * Real.pi * (a : ℝ)) * r,
       cy + Real.cos (2 * Real.pi * (a : ℝ)) * r, g.fDepth] }
  { g1 with indicesTriangles := g1.indicesTriangles ++
      [cIdx, g1.unIndex - 1, g1.unIndex]
            unIndex := g1.unIndex + 1
            uncI := g1.uncI + 8 }

/-- The uncached `filledCircle` loop `while (fAng < MATH_2PI)` with steps of
`1 / nSeg` turns; fuel-bounded structural recursion as in `circleLoopU`. -/
noncomputable def fcLoopU (cx cy r : ℝ) (cIdx nSeg : ℕ) :
    ℕ → ℚ → Graphics → Graphics
  | 0, _, g => g
  | fuel + 1, a, g =>
    if a < 1 then
      fcLoopU cx cy r cIdx nSeg fuel (a + 1 / nSeg) (fcStepU cx cy r cIdx a g)
    else
      g

/-- `CGraphics::filledCircle` (`graphics.cpp` lines 1273-1368).  Cached
path: center vertex, rim vertex 0, `m_unIndex += 2`, the rim loop for
`i = 1 .. nSeg - 1`, the closing triangle
`(centerIndex, m_unIndex - 1, m_unIndex - nSeg)` and
`m_uncI += 8 + 4 * (nSeg - 1)`.  Uncached path: center vertex, rim vertex at
angle 0, `m_unIndex += 2`, `m_uncI += 8`, then the angle loop; the source
emits no closing triangle after that loop. -/
noncomputable def filledCircle (cx cy r : ℝ) (nSeg : ℕ) (bCache : Bool)
    (g : Graphics) : Graphics :=
  let g1 :=
    if bCache then
      let gA := writeCol4 (writeVert3 cx cy g.fDepth g)
      let cIdx := gA.unIndex
      let gB := writeCol4 { gA with vertices := gA.vertices ++
          [cx + gA.sinCache 0 * r, cy + gA.cosCache 0 * r, gA.fDepth] }
      let gC := { gB with unIndex := gB.unIndex + 2 }
      let gD := fcLoopC cx cy r cIdx 1 (nSeg - 1) gC
      let gE := { gD with indicesTriangles := gD.indicesTriangles ++
          [cIdx, gD.unIndex - 1, gD.unIndex - nSeg] }
      { gE with uncI := gE.uncI + (8 + 4 * (nSeg - 1)) }
    else
      let gA := writeCol4 (writeVert3 cx cy g.fDepth g)
      let cIdx := gA.unIndex
      let gB := writeCol4 { gA with vertices := gA.vertices ++
          [cx + Real.sin 0 * r, cy + Real.cos 0 * r, gA.fDepth] }
      let gC := { gB with unIndex := gB.unIndex + 2, uncI := gB.uncI + 8 }
      fcLoopU cx cy r cIdx nSeg (nSeg + 1) (1 / nSeg) gC
  if g1.cap / 2 < g1.uncI then restartRenderBatchInternal g1 else g1

/-- `CGraphics::showVec` (`graphics.cpp` lines 1070-1090): draw an arrow for
a vector at a position — unless the vector's Euclidean norm is zero, in
which case nothing at all happens.  Otherwise: a single line segment from
the position to a point set back from the tip, and a filled triangle head. -/
noncomputable def showVec (vx vy px py : ℝ) (g : Graphics) : Graphics :=
  if Real.sqrt (vx * vx + vy * vy) ≠ 0 then
    let frontX := px + vx
    let frontY := py + vy
    let dirX := vx / Real.sqrt (vx * vx + vy * vy)
    let dirY := vy / Real.sqrt (vx * vx + vy * vy)
    let frontTX := frontX - dirX * 5 / g.fCamZoom
    let frontTY := frontY - dirY * 5 / g.fCamZoom
    let frontOLX := frontTX + -dirY * 2 / g.fCamZoom
    let frontOLY := frontTY + dirX * 2 / g.fCamZoom
    let frontORX := frontTX + dirY * 2 / g.fCamZoom
    let frontORY := frontTY + -dirX * 2 / g.fCamZoom
    let g1 := beginLine PolygonType.LINE_SINGLE g
    let g2 := addVertex px py g1
    let g3 := addVertex frontTX frontTY g2
    let g4 := endLine g3
    filledTriangle frontOLX frontOLY frontX frontY frontORX frontORY g4
  else
    g

/-! ## Concrete run states used by individual claims -/

/-- A registered render mode of the plain coloured type. -/
def modeA : CRenderMode := ⟨RenderModeType.VERT3COL4, 0⟩

/-- A registered render mode of a different (one-UV-channel) type. -/
def modeB : CRenderMode := ⟨RenderModeType.VERT3COL4TEX2, 1⟩

/-- A four-vertex `LINE_LOOP` built by `addVertex` inside a batch with
capacity 16 (threshold `16 / 2 = 8`): the cumulative cost `4 * k` crosses
the threshold exactly once, at the third vertex (k = 3, with 2 vertices
already written). -/
def c1run : Graphics :=
  endLine (addVertex 4 0 (addVertex 3 0 (addVertex 2 0 (addVertex 1 0
    (beginLine PolygonType.LINE_LOOP
      (beginRenderBatch modeA false (initG 16)))))))

/-- The nesting scenario of the claim: from Idle,
`begin(A); begin(B); end(); end()` with differing mode types. -/
def c2run : Graphics :=
  endRenderBatch false (endRenderBatch false
    (beginRenderBatch modeB false (beginRenderBatch modeA false (initG 16))))

/-- A six-vertex polygon emitted into a fresh batch with capacity 16. -/
noncomputable def c3run : Graphics :=
  polygon [(1, 0), (2, 0), (3, 0), (4, 0), (5, 0), (6, 0)]
    PolygonType.LINE_STRIP 0 0 (beginRenderBatch modeA false (initG 16))


/-- A state whose render-mode registry contains exactly the name "wm". -/
def c6reg : Graphics := { initG 16 with renderModesByName := [("wm", modeA)] }

/-- A camera state with a nonzero position (1, 0), identity rotation and
zoom, and an aspect-correct symmetric viewport for an 800x600 screen. -/
noncomputable def c4state : Graphics :=
  setViewPort (-1) 1 (-(3 / 4)) (3 / 4) { initG 16 with vecCamPosX := 1 }

/-- The index triples written by `k` iterations of the cached
`filledCircle` rim loop entered with vertex-ordinal counter `u`: the `j`-th
triple is `(c, u + j - 1, u + j)` where `c` is the center ordinal. -/
def fcTriples (c u : ℕ) : ℕ → List ℕ
  | 0 => []
  | k + 1 => c :: (u - 1) :: u :: fcTriples c (u + 1) k

/-! ## Helper lemmas -/

/-- `sqrt(x^2 + y^2) * cos(atan2(x, y)) = y` (the `atan2` argument order is
that of the source's `atan2(fX, fY)` call: first argument sine-side). -/
theorem sqrt_mul_cos_atan2 (x y : ℝ) :
    Real.sqrt (x * x + y * y) * Real.cos (atan2 x y) = y := by
  unfold atan2
  by_cases h : (⟨y, x⟩ : ℂ) = 0
  · obtain ⟨hy, hx⟩ : y = 0 ∧ x = 0 := by simpa [Complex.ext_iff] using h
    simp [hy, hx]
  · rw [Complex.cos_arg h]
    have habs : Complex.abs ⟨y, x⟩ = Real.sqrt (x * x + y * y) := by
      rw [Complex.abs_apply, Complex.normSq_mk]
      ring_nf
    have hne : Real.sqrt (x * x + y * y) ≠ 0 := by
      rw [← habs]
      simpa using h
    rw [habs]
    show Real.sqrt (x * x + y * y) * (y / Real.sqrt (x * x + y * y)) = y
    field_simp

/-- `sqrt(x^2 + y^2) * sin(atan2(x, y)) = x`. -/
theorem sqrt_mul_sin_atan2 (x y : ℝ) :
    Real.sqrt (x * x + y * y) * Real.sin (atan2 x y) = x := by
  unfold atan2
  rw [Complex.sin_arg]
  by_cases h : (⟨y, x⟩ : ℂ) = 0
  · obtain ⟨hy, hx⟩ : y = 0 ∧ x = 0 := by simpa [Complex.ext_iff] using h
    simp [hy, hx]
  · have habs : Complex.abs ⟨y, x⟩ = Real.sqrt (x * x + y * y) := by
      rw [Complex.abs_apply, Complex.normSq_mk]
      ring_nf
    have hne : Real.sqrt (x * x + y * y) ≠ 0 := by
      rw [← habs]
      simpa using h
    rw [habs]
    show Real.sqrt (x * x + y * y) * (x / Real.sqrt (x * x + y * y)) = x
    field_simp

/-- The polar-recompose step of `screen2World`, cosine component. -/
theorem polar_decomp_cos (X Y A : ℝ) :
    Real.sqrt (X * X + Y * Y) * Real.cos (atan2 X Y - (Real.pi / 2 - A)) =
      X * Real.cos A + Y * Real.sin A := by
  rw [Real.cos_sub, Real.cos_pi_div_two_sub, Real.sin_pi_div_two_sub]
  have h1 := sqrt_mul_cos_atan2 X Y
  have h2 := sqrt_mul_sin_atan2 X Y
  linear_combination Real.sin A * h1 + Real.cos A * h2

/-- The polar-recompose step of `screen2World`, sine component. -/
theorem polar_decomp_sin (X Y A : ℝ) :
    Real.sqrt (X * X + Y * Y) * Real.sin (atan2 X Y - (Real.pi / 2 - A)) =
      X * Real.sin A - Y * Real.cos A := by
  rw [Real.sin_sub, Real.cos_pi_div_two_sub, Real.sin_pi_div_two_sub]
  have h1 := sqrt_mul_cos_atan2 X Y
  have h2 := sqrt_mul_sin_atan2 X Y
  linear_combination Real.sin A * h2 - Real.cos A * h1

/-- Closed form of `screen2World`: the `sqrt`/`atan2`/`cos`/`sin` detour of
the source computes the rotation by the camera angle applied to the scaled
viewport coordinates `fX`, `fY`, followed by the camera translation (with
the sign asymmetry of the source: `+ camPos.x` but `- camPos.y`). -/
theorem screen2World_eq (g : Graphics) (v : ℝ × ℝ) :
    screen2World g v =
      ((((g.rightplane - g.leftplane) / g.widthScr * v.1 + g.leftplane) /
          g.fCamZoom) * Real.cos g.fCamAng +
       (((g.topplane - g.bottomplane) / g.heightScr * v.2 + g.bottomplane) /
          g.fCamZoom) * Real.sin g.fCamAng + g.vecCamPosX,
       (((g.rightplane - g.leftplane) / g.widthScr * v.1 + g.leftplane) /
          g.fCamZoom) * Real.sin g.fCamAng -
       (((g.topplane - g.bottomplane) / g.heightScr * v.2 + g.bottomplane) /
          g.fCamZoom) * Real.cos g.fCamAng - g.vecCamPosY) := by
  simp only [screen2World]
  rw [polar_decomp_cos, polar_decomp_sin]

/-- `fcTriples` describes `3 * k` index entries. -/
theorem fcTriples_length (c : ℕ) : ∀ k u, (fcTriples c u k).length = 3 * k := by
  intro k
  induction k with
  | zero => intro u; simp [fcTriples]
  | succ n ih =>
    intro u
    simp only [fcTriples, List.length_cons, ih (u + 1)]
    omega

/-- Every triple of `fcTriples` starts with the center ordinal `c`. -/
theorem fcTriples_getD (c : ℕ) :
    ∀ j k u, j < k → (fcTriples c u k).getD (3 * j) 0 = c := by
  intro j
  induction j with
  | zero =>
    intro k u hk
    match k with
    | n + 1 => simp [fcTriples]
  | succ i ih =>
    intro k u hk
    match k with
    | n + 1 =>
      have h1 : 3 * (i + 1) = 3 * i + 1 + 1 + 1 := by ring
      rw [h1]
      show (c :: (u - 1) :: u :: fcTriples c (u + 1) n).getD
          (3 * i + 1 + 1 + 1) 0 = c
      rw [List.getD_cons_succ, List.getD_cons_succ, List.getD_cons_succ]
      exact ih n (u + 1) (by omega)

/-- The cached `filledCircle` rim loop appends exactly the `fcTriples`
pattern to the triangle index stream. -/
theorem fcLoopC_tri (cx cy r : ℝ) (c : ℕ) :
    ∀ k i g, (fcLoopC cx cy r c i k g).indicesTriangles =
      g.indicesTriangles ++ fcTriples c g.unIndex k := by
  intro k
  induction k with
  | zero => intro i g; simp [fcLoopC, fcTriples]
  | succ n ih =>
    intro i g
    show (fcLoopC cx cy r c (i + 1) n (fcStepC cx cy r c i g)).indicesTriangles = _
    rw [ih (i + 1) (fcStepC cx cy r c i g)]
    simp [fcStepC, writeCol4, fcTriples]

/-- The cached `filledCircle` rim loop advances `m_unIndex` by one per
iteration. -/
theorem fcLoopC_unIndex (cx cy r : ℝ) (c : ℕ) :
    ∀ k i g, (fcLoopC cx cy r c i k g).unIndex = g.unIndex + k := by
  intro k
  induction k with
  | zero => intro i g; simp [fcLoopC]
  | succ n ih =>
    intro i g
    show (fcLoopC cx cy r c (i + 1) n (fcStepC cx cy r c i g)).unIndex = _
    rw [ih (i + 1) (fcStepC cx cy r c i g)]
    simp [fcStepC, writeCol4]
    omega

/-- The cached `filledCircle` rim loop leaves the cost counter unchanged
(the source adds the whole cost after the loop). -/
theorem fcLoopC_uncI (cx cy r : ℝ) (c : ℕ) :
    ∀ k i g, (fcLoopC cx cy r c i k g).uncI = g.uncI := by
  intro k
  induction k with
  | zero => intro i g; simp [fcLoopC]
  | succ n ih =>
    intro i g
    show (fcLoopC cx cy r c (i + 1) n (fcStepC cx cy r c i g)).uncI = _
    rw [ih (i + 1) (fcStepC cx cy r c i g)]
    simp [fcStepC, writeCol4]

/-- The cached `filledCircle` rim loop leaves the capacity unchanged. -/
theorem fcLoopC_cap (cx cy r : ℝ) (c : ℕ) :
    ∀ k i g, (fcLoopC cx cy r c i k g).cap = g.cap := by
  intro k
  induction k with
  | zero => intro i g; simp [fcLoopC]
  | succ n ih =>
    intro i g
    show (fcLoopC cx cy r c (i + 1) n (fcStepC cx cy r c i g)).cap = _
    rw [ih (i + 1) (fcStepC cx cy r c i g)]
    simp [fcStepC, writeCol4]

/-! ## Claim theorems -/

/-- Claim C1 (code bug): in the four-vertex `LINE_LOOP` of `c1run`, split
once by the threshold at the third vertex, the line-index stream emitted
across the two batch generations is: first generation `[0, 1]` (the single
edge joining the two vertices written before the flush), second generation
`[0, 1, 1, 2]` (the edge joining the two remaining vertices and the closing
edge against ordinal 2, a freshly appended vertex carrying the snapshotted
first vertex's coordinates `(1, 0)`).  That is three edges in total, while a
single closed cycle visiting all four vertices requires four: the stitching
edge between the last pre-flush vertex `(2, 0)` and the first post-flush
vertex `(3, 0)` is never emitted (the source's `if (m_bLineBatchCall)`
block labelled "Close gaps if between batches" is empty), so the emitted
stream is two disconnected paths, not a single closed cycle. -/
theorem lineLoopSplit_trace :
    (submissionsOf c1run.glog).map Submission.subLines = [[0, 1]] ∧
    c1run.indicesLines = [0, 1, 1, 2] ∧
    c1run.vertices = [3, 0, 0, 4, 0, 0, 1, 0, 0] ∧
    c1run.aVertFirst = (1, 0) :=
  ⟨rfl, rfl, rfl, rfl⟩

/-- Claim C2, counterexample: the sequence `begin(A); begin(B); end();
end()` from Idle performs three draw submissions, not two as claimed. -/
theorem nestedBatch_not_two_submissions :
    (submissionsOf c2run.glog).length ≠ 2 := by
  have h : (submissionsOf c2run.glog).length = 3 := rfl
  omega

/-- Claim C2 (amended): the sequence `begin(A); begin(B); end(); end()`
from Idle performs exactly three draw submissions, in order: one forced by
the mode change inside `begin(B)` (drawing with A's mode type), one at the
first `end()` (drawing B's batch before re-beginning A's), and one at the
final `end()` (drawing the restored A batch); the render-mode stack is
empty afterwards. -/
theorem nestedBatch_three_submissions_stack_empty :
    submissionTypes c2run.glog =
      [RenderModeType.VERT3COL4, RenderModeType.VERT3COL4TEX2,
       RenderModeType.VERT3COL4] ∧
    c2run.renderModeStack = [] :=
  ⟨rfl, rfl⟩

set_option maxHeartbeats 1000000 in
/-- Claim C3 (code bug): `polygon` never compares the cumulative cost
counter against `GRAPHICS_SIZE_OF_INDEX_BUFFER / 2` and never calls the
internal flush.  A six-vertex polygon written into a fresh batch of
capacity 16 leaves the vertex write cursor at 18 > 16 (past the fixed
capacity), the cost counter at 24 > 8 (past the threshold), and the event
log without a single flush submission. -/
theorem polygon_overflow_no_flush :
    c3run.cap < c3run.vertices.length ∧
    c3run.cap / 2 < c3run.uncI ∧
    submissionsOf c3run.glog = [] := by
  have h1 : c3run.vertices.length = 18 := by
    simp [c3run, polygon, beginLine, beginRenderBatch, resetCursors,
      initG, endLine, stripEdges, stripEdgeStep, writeLineIdx, writeCol4,
      writeVert3, modeA]
  have h2 : c3run.cap = 16 := by
    simp [c3run, polygon, beginLine, beginRenderBatch, resetCursors,
      initG, endLine, stripEdges, stripEdgeStep, writeLineIdx, writeCol4,
      writeVert3, modeA]
  have h3 : c3run.uncI = 24 := by
    simp [c3run, polygon, beginLine, beginRenderBatch, resetCursors,
      initG, endLine, stripEdges, stripEdgeStep, writeLineIdx, writeCol4,
      writeVert3, modeA]
  have h4 : submissionsOf c3run.glog = [] := by
    simp [c3run, polygon, beginLine, beginRenderBatch, resetCursors,
      initG, endLine, stripEdges, stripEdgeStep, writeLineIdx, writeCol4,
      writeVert3, submissionsOf, modeA]
  refine ⟨by omega, by omega, h4⟩

/-- Claim C4, counterexample: with the camera moved to position `(1, 0)`
(identity rotation and zoom, aspect-correct symmetric viewport for an
800x600 screen), the round trip `world2Screen (screen2World P)` of the
screen point `(0, 0)` is `(400, 0)`, not `(0, 0)`: `world2Screen` ignores
the camera position that `screen2World` adds, so the round-trip law fails
for nonzero camera positions by a gross, tolerance-independent margin. -/
theorem roundTrip_fails_offset_camera :
    world2Screen c4state (screen2World c4state (0, 0)) ≠ (0, 0) := by
  rw [screen2World_eq]
  simp only [c4state, setViewPort, initG, world2Screen]
  norm_num [Prod.ext_iff, Real.cos_zero, Real.sin_zero]

/-- Claim C4 (amended): for every rotation angle and every positive zoom,
with the camera position at the origin and the viewport planes as set by
`resizeViewport` (symmetric and aspect-matched to the screen resolution),
`world2Screen (screen2World P) = P` exactly, for every screen point `P`. -/
theorem roundTrip_identity_camera (g : Graphics) (w h ppm : ℝ)
    (hw : 0 < w) (hh : 0 < h) (hppm : 0 < ppm) (hz : 0 < g.fCamZoom)
    (hcx : g.vecCamPosX = 0) (hcy : g.vecCamPosY = 0)
    (hW : g.widthScr = w) (hH : g.heightScr = h)
    (hr : g.rightplane = w * (0.5 / ppm)) (ht : g.topplane = h * (0.5 / ppm))
    (hl : g.leftplane = -(w * (0.5 / ppm)))
    (hb : g.bottomplane = -(h * (0.5 / ppm)))
    (v : ℝ × ℝ) :
    world2Screen g (screen2World g v) = v := by
  obtain ⟨px, py⟩ := v
  have hzne : g.fCamZoom ≠ 0 := ne_of_gt hz
  have hwne : w ≠ 0 := ne_of_gt hw
  have hhne : h ≠ 0 := ne_of_gt hh
  have hpne : ppm ≠ 0 := ne_of_gt hppm
  have hsc := Real.sin_sq_add_cos_sq g.fCamAng
  rw [screen2World_eq]
  simp only [world2Screen, hcx, hcy, hW, hH, hr, ht, hl, hb]
  rw [Prod.mk.injEq]
  constructor
  · field_simp
    linear_combination (w ^ 2 * px * ppm ^ 5 * h * g.fCamZoom ^ 2 -
      w ^ 3 * ppm ^ 5 * h * g.fCamZoom ^ 2 / 2) * hsc
  · field_simp
    linear_combination (w ^ 2 * ppm ^ 5 * h * g.fCamZoom ^ 2 * py -
      w ^ 2 * ppm ^ 5 * h ^ 2 * g.fCamZoom ^ 2 / 2) * hsc

/-- Witness for the amended claim C4 at a concrete camera/viewport state
and screen point. -/
theorem roundTrip_identity_camera_witness :
    world2Screen (resizeViewport 800 600 1 (initG 16))
        (screen2World (resizeViewport 800 600 1 (initG 16)) (5, 7)) =
      (5, 7) :=
  roundTrip_identity_camera (resizeViewport 800 600 1 (initG 16)) 800 600 1
    (by norm_num) (by norm_num) (by norm_num)
    (by norm_num [resizeViewport, initG]) rfl rfl rfl rfl rfl rfl rfl rfl
    (5, 7)

/-- Claim C5: a non-forced `endRenderBatch` on an empty render-mode stack
performs no draw submission and mutates no batching state — the only effect
is the `WARNING_MSG` diagnostic (under the source's development-build
`DOM_DEV` wrapper), modelled as a `GEvent.warn` appended to the log. -/
theorem endRenderBatch_empty_stack_warns (g : Graphics)
    (hstack : g.renderModeStack = []) :
    endRenderBatch false g = { g with glog := g.glog ++ [GEvent.warn] } := by
  simp [endRenderBatch, hstack]

/-- Witness for claim C5 at the freshly constructed (Idle) state. -/
theorem endRenderBatch_empty_stack_warns_witness :
    endRenderBatch false (initG 16) =
      { initG 16 with glog := (initG 16).glog ++ [GEvent.warn] } :=
  endRenderBatch_empty_stack_warns (initG 16) rfl

/-- Claim C6: the string-keyed `beginRenderBatch` and `restartRenderBatch`
return `false` and log a warning on a registry miss, changing nothing else,
and return `true` when the name is registered. -/
theorem renderBatchByName_lookup (g : Graphics) (name : String) :
    (g.renderModesByName.lookup name = none →
        beginRenderBatchByName name g =
          ({ g with glog := g.glog ++ [GEvent.warn] }, false) ∧
        restartRenderBatchByName name g =
          ({ g with glog := g.glog ++ [GEvent.warn] }, false)) ∧
    (∀ m, g.renderModesByName.lookup name = some m →
        (beginRenderBatchByName name g).2 = true ∧
        (restartRenderBatchByName name g).2 = true) := by
  constructor
  · intro hnone
    constructor <;>
      simp [beginRenderBatchByName, restartRenderBatchByName, hnone]
  · intro m hsome
    constructor <;>
      simp [beginRenderBatchByName, restartRenderBatchByName, hsome]

/-- Witness for claim C6: a registry containing only "wm" — a miss on
"nope" is a warned no-op returning `false`, a hit on "wm" returns `true`. -/
theorem renderBatchByName_lookup_witness :
    beginRenderBatchByName "nope" c6reg =
      ({ c6reg with glog := c6reg.glog ++ [GEvent.warn] }, false) ∧
    restartRenderBatchByName "nope" c6reg =
      ({ c6reg with glog := c6reg.glog ++ [GEvent.warn] }, false) ∧
    (beginRenderBatchByName "wm" c6reg).2 = true ∧
    (restartRenderBatchByName "wm" c6reg).2 = true :=
  ⟨((renderBatchByName_lookup c6reg "nope").1 rfl).1,
   ((renderBatchByName_lookup c6reg "nope").1 rfl).2,
   ((renderBatchByName_lookup c6reg "wm").2 modeA rfl).1,
   ((renderBatchByName_lookup c6reg "wm").2 modeA rfl).2⟩

/-- Claim C7, counterexample: the uncached path of `filledCircle` with
segment count 2 appends one index triple (3 entries), not the claimed 2
triples (6 entries): its angle loop runs `nSeg - 1` times and, unlike the
cached path, no closing triple follows the loop.  (For `nSeg = 2` the IEEE
double computation of the source is exact, so the ideal-arithmetic loop
count used here is also the loop count of the compiled code.) -/
theorem filledCircle_uncached_misses_closing :
    (filledCircle 0 0 1 2 false (initG 100)).indicesTriangles.length ≠
      2 * 3 := by
  norm_num [filledCircle, fcLoopU, fcStepU, writeCol4, writeVert3, initG,
    restartRenderBatchInternal, resetCursors, flushDraw]

/-- Claim C7 (amended): for every center, radius and segment count
`S ≥ 1`, `filledCircle` with the sin/cos cache enabled appends exactly `S`
triples of indices to the triangle index stream, and every one of those `S`
triples contains (as its first entry) the ordinal of the center vertex.
Stated below the flush threshold so that the appended stream is still in
the buffer afterwards. -/
theorem filledCircle_cached_triples (cx cy r : ℝ) (S : ℕ) (g : Graphics)
    (hS : 1 ≤ S) (hcap : g.uncI + (8 + 4 * (S - 1)) ≤ g.cap / 2) :
    (filledCircle cx cy r S true g).indicesTriangles.length =
        g.indicesTriangles.length + 3 * S ∧
    ∀ j, j < S →
      (filledCircle cx cy r S true g).indicesTriangles.getD
          (g.indicesTriangles.length + 3 * j) 0 = g.unIndex := by
  have hcond : ¬ (g.cap / 2 < g.uncI + (8 + 4 * (S - 1))) := by omega
  have heq : (filledCircle cx cy r S true g).indicesTriangles =
      g.indicesTriangles ++
        (fcTriples g.unIndex (g.unIndex + 2) (S - 1) ++
          [g.unIndex, g.unIndex + 2 + (S - 1) - 1,
           g.unIndex + 2 + (S - 1) - S]) := by
    simp only [filledCircle, ite_true]
    simp only [writeVert3, writeCol4]
    simp only [fcLoopC_tri, fcLoopC_unIndex, fcLoopC_uncI, fcLoopC_cap]
    rw [if_neg hcond]
    simp [List.append_assoc]
  refine ⟨?_, ?_⟩
  · rw [heq]
    simp [List.length_append, fcTriples_length]
    omega
  · intro j hj
    rw [heq]
    rw [List.getD_append_right _ _ _ _ (by omega)]
    have hidx : g.indicesTriangles.length + 3 * j -
        g.indicesTriangles.length = 3 * j := by omega
    rw [hidx]
    by_cases hj2 : j < S - 1
    · rw [List.getD_append _ _ _ _ (by rw [fcTriples_length]; omega)]
      exact fcTriples_getD _ j (S - 1) _ hj2
    · rw [List.getD_append_right _ _ _ _ (by rw [fcTriples_length]; omega)]
      rw [fcTriples_length]
      have h0 : 3 * j - 3 * (S - 1) = 0 := by omega
      rw [h0]
      simp

/-- Witness for the amended claim C7: a cached filled circle with four
segments in a fresh batch of capacity 100. -/
theorem filledCircle_cached_triples_witness :
    1 ≤ 4 ∧
    (initG 100).uncI + (8 + 4 * (4 - 1)) ≤ (initG 100).cap / 2 ∧
    ((filledCircle 0 0 1 4 true (initG 100)).indicesTriangles.length =
        (initG 100).indicesTriangles.length + 3 * 4 ∧
      ∀ j, j < 4 →
        (filledCircle 0 0 1 4 true (initG 100)).indicesTriangles.getD
            ((initG 100).indicesTriangles.length + 3 * j) 0 =
          (initG 100).unIndex) :=
  ⟨by norm_num, by norm_num [initG],
    filledCircle_cached_triples 0 0 1 4 (initG 100) (by norm_num)
      (by norm_num [initG])⟩

/-- Claim C8: after `resizeViewport(800, 600)` (any positive
pixels-per-meter constant), with the camera at identity (position zero,
zoom 1, angle 0), `screen2World` of the screen center `(400, 300)` is the
world origin. -/
theorem screen2World_center_origin (g : Graphics) (ppm : ℝ) (hppm : 0 < ppm)
    (hcx : g.vecCamPosX = 0) (hcy : g.vecCamPosY = 0)
    (ha : g.fCamAng = 0) (hz : g.fCamZoom = 1) :
    screen2World (resizeViewport 800 600 ppm g) (400, 300) = (0, 0) := by
  have hpne : ppm ≠ 0 := ne_of_gt hppm
  rw [screen2World_eq]
  simp only [resizeViewport, hcx, hcy, ha, hz]
  rw [Prod.mk.injEq]
  constructor <;> (field_simp; ring)

/-- Witness for claim C8 at the freshly constructed state with
pixels-per-meter 1. -/
theorem screen2World_center_origin_witness :
    screen2World (resizeViewport 800 600 1 (initG 16)) (400, 300) = (0, 0) :=
  screen2World_center_origin (initG 16) 1 (by norm_num) rfl rfl rfl rfl

/-- Claim C9: the vector-argument and scalar-argument overloads of
`screen2World` compute identical results for every state and every screen
coordinate (their bodies are verbatim copies). -/
theorem screen2World_overloads_agree (g : Graphics) (x y : ℝ) :
    screen2World g (x, y) = screen2WorldScalar g x y := rfl

/-- Claim C10: `showVec` with the zero vector (the only vector of norm 0)
is a complete no-op: the whole graphics state — every buffer, every cursor,
the shared vertex-ordinal counter and the cost counter — is returned
unchanged. -/
theorem showVec_zero_noop (px py : ℝ) (g : Graphics) :
    showVec 0 0 px py g = g := by
  simp [showVec]

end BFE
